import Mathlib

/-!
Verification of the `pgm::process` library (src/process.hpp, src/process.cpp,
src/charpp.hpp): a shallow embedding of the process lifecycle state machine,
the spawn/wait/raise operations, the pipe helpers, the `ifilebuf` one-byte
pushback buffer, and the `make_charpp` argument-vector helper.

OS calls (`pipe`, `fork`, `dup2`, `waitpid`, `kill`, `nanosleep`, `fdopen`)
are modelled by passing their results in explicitly as oracle parameters;
the file-descriptor table is modelled as a list of open descriptors, and
errno values and thrown exceptions as small inductive types.
-/

namespace Pgm

/-- errno values that the code inspects, plus a catch-all for the rest
(`std::errc::no_child_process`, `no_such_process`, `interrupted`). -/
inductive ErrNo where
  | echild
  | esrch
  | eintr
  | eother (n : Nat)
deriving DecidableEq, Repr

/-- Errors thrown by the library.  `sysUsage` models the
`std::system_error(posix::errc::...)` throws used for usage errors
(invalid argument on a non-joinable handle, resource deadlock on
self-join); `osErr` models `posix::errno_error`, which carries the
current `errno`.  The two are distinguishable by the caller. -/
inductive UsageErrc where
  | invalidArgument
  | resourceDeadlock
deriving DecidableEq, Repr

inductive PErr where
  | sysUsage (e : UsageErrc)
  | osErr (e : ErrNo)
deriving DecidableEq, Repr

/-- `enum state` from src/process.hpp (lines 29-36). -/
inductive State where
  | not_started
  | running
  | stopped
  | exited
  | signaled
deriving DecidableEq, Repr

/-- The data members of `class process`: `id_` (a `pid_t`, value 0 is the
default-constructed null id), `state_`, `code_`, `signal_`.  The three
stream-buffer members carry no lifecycle information and are modelled
separately where a claim needs them. -/
structure Process where
  id_ : Int
  state_ : State
  code_ : Int
  signal_ : Int
deriving DecidableEq, Repr

/-- `process::joinable`: `return !(id_ == id());` where `id()` is the
default id whose handle is zero-initialised (src/process.hpp line 90). -/
def joinable (p : Process) : Bool := !(p.id_ == 0)

/-- Decoded `waitpid` status: exactly one of `WIFEXITED`, `WIFSIGNALED`,
`WIFSTOPPED` holds of a raw status (or none of the three, e.g. a
`WIFCONTINUED` report), with `WEXITSTATUS` / `WTERMSIG` / `WSTOPSIG`
as the payload. -/
inductive WStatus where
  | wExited (code : Int)
  | wSignaled (sig : Int)
  | wStopped (sig : Int)
  | wOther
deriving DecidableEq, Repr

/-- `process::update` (src/process.cpp lines 348-367): decode the wait
status; on exit or signal record the payload and reset `id_` to the null
id; on stop record the signal and keep `id_`; otherwise change nothing. -/
def update (p : Process) : WStatus → Process
  | .wExited c => { p with state_ := .exited, code_ := c, id_ := 0 }
  | .wSignaled s => { p with state_ := .signaled, signal_ := s, id_ := 0 }
  | .wStopped s => { p with state_ := .stopped, signal_ := s }
  | .wOther => p

/-- One result of a `::waitpid` call: `-1` with an errno, `0` (no state
change, only under `WNOHANG`), or the child's pid with a status. -/
inductive WaitRes where
  | werr (e : ErrNo)
  | noChange
  | wstatus (s : WStatus)
deriving DecidableEq, Repr

/-- Loop body of `process::state()` (src/process.cpp lines 244-269):
while `state_` is `running` or `stopped`, call `waitpid(..., WNOHANG)`;
on `-1` with `ECHILD` set `state_ = not_started` (the while condition
then fails and the current state is returned); on `-1` with any other
errno throw it; on `0` break; on the child's pid apply `update` and loop.
The oracle list holds the successive `waitpid` results; an exhausted
oracle (never reached in the claims below) returns the current state. -/
def pollLoop (p : Process) : List WaitRes → Except PErr Process
  | [] => .ok p
  | r :: rs =>
    if p.state_ = .running ∨ p.state_ = .stopped then
      match r with
      | .werr e => if e = .echild then .ok { p with state_ := .not_started }
                   else .error (.osErr e)
      | .noChange => .ok p
      | .wstatus s => pollLoop (update p s) rs
    else .ok p

/-- Loop body of `process::join` (src/process.cpp lines 281-295): same as
`pollLoop` but with a blocking `waitpid` — a return of `0` or of a pid
other than `native_handle()` matches no branch and the loop re-runs. -/
def joinLoop (p : Process) : List WaitRes → Except PErr Process
  | [] => .ok p
  | r :: rs =>
    if p.state_ = .running ∨ p.state_ = .stopped then
      match r with
      | .werr e => if e = .echild then .ok { p with state_ := .not_started }
                   else .error (.osErr e)
      | .noChange => joinLoop p rs
      | .wstatus s => joinLoop (update p s) rs
    else .ok p

/-- `process::join` (src/process.cpp lines 275-296): throw
`invalid_argument` if not joinable, `resource_deadlock_would_occur` if
the process id equals the calling process's own id
(`this_process::get_id()`, passed here as `selfId`), then run the
blocking wait loop. -/
def join (selfId : Int) (p : Process) (rs : List WaitRes) : Except PErr Process :=
  if joinable p = false then .error (.sysUsage .invalidArgument)
  else if p.id_ = selfId then .error (.sysUsage .resourceDeadlock)
  else joinLoop p rs

/-! ## Pipe helpers (anonymous namespace, src/process.cpp lines 100-153)

A pipe is the pair of descriptors filled in by `::pipe`; the descriptor
table of the current process is modelled as the list of open descriptor
numbers.  `::dup2(old, new)` makes `new` an open descriptor (closing any
previous meaning it had, which leaves the set of open numbers unchanged);
`::close(fd)` removes `fd`. -/

/-- Effect of a successful `::dup2(old, fd)` on the set of open
descriptors: `fd` is now open. -/
def dup2Open (st : List Nat) (fd : Nat) : List Nat :=
  if st.contains fd then st else fd :: st

/-- Effect of `::close(fd)`: `fd` is no longer open (closing a
descriptor that is not open fails with `EBADF`, which every caller in
this file ignores). -/
def closeFd (st : List Nat) (fd : Nat) : List Nat :=
  st.filter (fun x => !(x == fd))

/-- `close(fd_pipe)` (src/process.cpp lines 115-119): best-effort close
of both ends, `noexcept`. -/
def closePipe (st : List Nat) (fp : Nat × Nat) : List Nat :=
  closeFd (closeFd st fp.1) fp.2

/-- `write_to` (src/process.cpp lines 123-127): `dup2(fp[wr], fd)`, and
throw `posix::errno_error` if it fails — before anything is closed; on
success close `fp[rd]`.  The first component is the thrown error or
`()`, the second the descriptor table afterwards. -/
def write_to (fp : Nat × Nat) (fd : Nat) (dupRes : Option ErrNo)
    (st : List Nat) : Except PErr Unit × List Nat :=
  match dupRes with
  | some e => (.error (.osErr e), st)
  | none => (.ok (), closeFd (dup2Open st fd) fp.1)

/-- `read_from` (src/process.cpp lines 131-135): `dup2(fp[rd], fd)`,
throwing on failure; on success close `fp[wr]`. -/
def read_from (fp : Nat × Nat) (fd : Nat) (dupRes : Option ErrNo)
    (st : List Nat) : Except PErr Unit × List Nat :=
  match dupRes with
  | some e => (.error (.osErr e), st)
  | none => (.ok (), closeFd (dup2Open st fd) fp.2)

/-! ## The spawning constructor (src/process.cpp lines 156-206) -/

/-- Oracle for one spawn attempt: the results of the three `::pipe`
calls (in the order the code makes them: `fpo`, `fpi`, `fpe`), of
`::fork` (`.error e` models a return of `-1` with that errno), and of
the three `fdopen` calls made while building the parent-side stream
buffers (`false` = `fdopen` returned null and the buffer constructor
threw `posix::errno_error`, carrying `fdopenErr`). -/
structure SpawnEnv where
  po : Except ErrNo (Nat × Nat)
  pi_ : Except ErrNo (Nat × Nat)
  pe : Except ErrNo (Nat × Nat)
  forkRes : Except ErrNo Int
  fdopenOut : Bool
  fdopenIn : Bool
  fdopenErr2 : Bool
  fdopenErrNo : ErrNo
deriving Repr

/-- How the constructor call ends: in the parent with a wired handle, in
the child (which never returns — its behaviour is `childRun` below), or
by rethrowing an exception after the `catch` block's cleanup. -/
inductive SpawnRes where
  | parent (p : Process)
  | childBranch
deriving DecidableEq, Repr

/-- Observable outcome of one spawn attempt: the result or the escaped
exception; the descriptors created by this attempt's `::pipe` calls;
those of them still open when the constructor returns or throws; and
whether a `::fork` succeeded (so that a child process exists). -/
structure SpawnOut where
  result : Except PErr SpawnRes
  created : List Nat
  stillOpen : List Nat
  childCreated : Bool
deriving Repr

/-- `process::process(std::function<int()>&&)` (src/process.cpp lines
156-206).  The body opens the three pipes, forks, and wires either the
child (dup2 onto the standard descriptors — the success path of that
wiring is summarised here, its failure analysis is `childRun`) or the
parent (one stream buffer per pipe, each first closing the end it does
not use); `catch(...)` closes all three pipe variables and rethrows.
For a pipe variable the code never filled, that close acts on the
indeterminate contents of a stack array — descriptors this attempt did
not create — so it does not affect `stillOpen`, which tracks only
descriptors created here. -/
def spawn (env : SpawnEnv) : SpawnOut :=
  match env.po with
  | .error e =>
      { result := .error (.osErr e), created := [], stillOpen := [],
        childCreated := false }
  | .ok fpo =>
    let c1 := [fpo.1, fpo.2]
    match env.pi_ with
    | .error e =>
        { result := .error (.osErr e), created := c1,
          stillOpen := closePipe c1 fpo, childCreated := false }
    | .ok fpi =>
      let c2 := c1 ++ [fpi.1, fpi.2]
      match env.pe with
      | .error e =>
          { result := .error (.osErr e), created := c2,
            stillOpen := closePipe (closePipe c2 fpo) fpi,
            childCreated := false }
      | .ok fpe =>
        let c3 := c2 ++ [fpe.1, fpe.2]
        let cleanup := fun st => closePipe (closePipe (closePipe st fpo) fpi) fpe
        match env.forkRes with
        | .error e =>
            { result := .error (.osErr e), created := c3,
              stillOpen := cleanup c3, childCreated := false }
        | .ok pid =>
          if pid == 0 then
            -- child branch: write_to(fpo, 1); read_from(fpi, 0); write_to(fpe, 2)
            { result := .ok .childBranch, created := c3,
              stillOpen := closeFd (closeFd (closeFd c3 fpo.1) fpi.2) fpe.1,
              childCreated := true }
          else
            -- parent branch: ifilebuf_from(fpo) closes fpo[wr] then fdopen(fpo[rd]);
            -- ofilebuf_from(fpi) closes fpi[rd] then fdopen(fpi[wr]);
            -- ifilebuf_from(fpe) closes fpe[wr] then fdopen(fpe[rd]).
            let s1 := closeFd c3 fpo.2
            if env.fdopenOut = false then
              { result := .error (.osErr env.fdopenErrNo), created := c3,
                stillOpen := cleanup s1, childCreated := true }
            else
              let s2 := closeFd s1 fpi.1
              if env.fdopenIn = false then
                { result := .error (.osErr env.fdopenErrNo), created := c3,
                  stillOpen := cleanup s2, childCreated := true }
              else
                let s3 := closeFd s2 fpe.2
                if env.fdopenErr2 = false then
                  { result := .error (.osErr env.fdopenErrNo), created := c3,
                    stillOpen := cleanup s3, childCreated := true }
                else
                  { result := .ok (.parent { id_ := pid, state_ := .running,
                                             code_ := -1, signal_ := -1 }),
                    created := c3, stillOpen := s3, childCreated := true }

/-! ## The child branch in detail (src/process.cpp lines 170-180) -/

/-- `EXIT_FAILURE`. -/
def exitFailureCode : Int := 1

/-- How the child leaves: through `std::exit(code)`, or — when one of
the `dup2` calls throws — by unwinding out of the constructor's `catch`
rethrow inside the forked child. -/
inductive ChildEnd where
  | exitCall (code : Int)
  | unwound
deriving DecidableEq, Repr

/-- The child branch: wire stdout, stdin, stderr; then
`int code; try { code = fn(); } catch(...) { code = EXIT_FAILURE; }
std::exit(code);`.  `fn` is the entry point: `.ok c` models a normal
return of `c`, `.error u` an exception escaping it. -/
def childRun (dupOut dupIn dupErr2 : Bool) (fn : Except Unit Int) : ChildEnd :=
  if dupOut = false then .unwound
  else if dupIn = false then .unwound
  else if dupErr2 = false then .unwound
  else match fn with
    | .ok c => .exitCall c
    | .error _ => .exitCall exitFailureCode

/-- One result of the `::kill` call inside `process::raise`. -/
inductive KillRes where
  | killOk
  | killErr (e : ErrNo)
deriving DecidableEq, Repr

/-- `process::raise` (src/process.cpp lines 336-345): throw
`invalid_argument` if not joinable; call `kill`; a nonzero return with
errno `ESRCH` (`no_such_process`) is swallowed, any other errno is
thrown as an OS error. -/
def raiseSig (p : Process) (_signalNum : Int) (k : KillRes) : Except PErr Unit :=
  if joinable p = false then .error (.sysUsage .invalidArgument)
  else match k with
    | .killOk => .ok ()
    | .killErr e => if e = .esrch then .ok () else .error (.osErr e)

/-! ## Timed join (src/process.cpp lines 299-333)

`try_join_for_` installs a no-op `SIGCHLD` handler through an RAII
`guard` whose constructor saves the previous handler and whose
destructor restores it; the destructor runs on normal return and during
stack unwinding alike, so the process-wide handler slot is restored on
every exit path. The slot's contents are threaded explicitly. -/

/-- Contents of the process-wide `SIGCHLD` handler slot.  `noop` is the
lambda the guard installs; any previous contents are some `Handler`. -/
inductive Handler where
  | noop
  | dfl
  | ign
  | custom (n : Nat)
deriving DecidableEq, Repr

/-- One result of a `::nanosleep` call: `0` (the interval elapsed) or
`-1` with an errno (`EINTR` when a signal interrupted the sleep). -/
inductive SleepRes where
  | completed
  | serr (e : ErrNo)
deriving DecidableEq, Repr

/-- Oracle for one `try_join_for_` call: `waitpid` results for the
initial `state()` poll, then, for each `nanosleep` iteration, the sleep
result and the `waitpid` results for the re-poll run when the sleep was
interrupted. -/
structure TJEnv where
  pre : List WaitRes
  iters : List (SleepRes × List WaitRes)
deriving Repr

/-- The `while(::nanosleep(&tv, &tv) == -1)` loop: a completed sleep
falls out of the loop and returns `false`; `EINTR` re-polls and returns
`true` if the state became terminal, else sleeps again; any other errno
is thrown.  An exhausted oracle models the current sleep running to
completion. -/
def tjLoop (p : Process) : List (SleepRes × List WaitRes) →
    Except PErr (Bool × Process)
  | [] => .ok (false, p)
  | (s, polls) :: rest =>
    match s with
    | .completed => .ok (false, p)
    | .serr e =>
      if e = .eintr then
        match pollLoop p polls with
        | .error err => .error err
        | .ok q =>
          if ¬(q.state_ = .running ∨ q.state_ = .stopped) then .ok (true, q)
          else tjLoop q rest
      else .error (.osErr e)

/-- `process::try_join_for_` (src/process.cpp lines 299-333).  Returns
the call's outcome (`true` = joined, `false` = timed out, or the thrown
error) together with the final contents of the `SIGCHLD` handler slot,
whose initial contents are `h0`.  The joinable / self-join checks and
the first `state()` call run before the guard installs anything; every
path after the installation runs the guard's destructor, which writes
the saved `h0` back. -/
def try_join_for_ (selfId : Int) (p : Process) (env : TJEnv) (h0 : Handler) :
    Except PErr (Bool × Process) × Handler :=
  if joinable p = false then (.error (.sysUsage .invalidArgument), h0)
  else if p.id_ = selfId then (.error (.sysUsage .resourceDeadlock), h0)
  else
    match pollLoop p env.pre with
    | .error e => (.error e, h0)
    | .ok q =>
      if ¬(q.state_ = .running ∨ q.state_ = .stopped) then (.ok (true, q), h0)
      else
        -- guard constructor: slot := noop, before := h0
        let slotDuringLoop : Handler := .noop
        match tjLoop q env.iters with
        -- guard destructor on unwinding: slot := before
        | .error e => (.error e, h0)
        -- guard destructor on return: slot := before
        | .ok r =>
          let _ := slotDuringLoop
          (.ok r, h0)

/-! ## `ifilebuf`: input stream buffer with one-byte putback
(src/process.cpp lines 30-71)

The get area is the single `char buffer_`: `eback() = &buffer_` and
`egptr() = &buffer_ + 1` always, and `gptr()` moves between them, so the
get pointer is modelled by its offset `gpos` (0 or 1) from `eback()`.
The underlying `FILE` is the list of bytes not yet read from it. -/

structure IBuf where
  buffer_ : Nat
  gpos : Nat
  input : List Nat
deriving DecidableEq, Repr

/-- The constructor (src/process.cpp lines 34-38):
`setg(&buffer_, &buffer_ + 1, &buffer_ + 1)`, so the get pointer starts
at `egptr()`, offset 1.  `b0` is the indeterminate initial content of
`buffer_`. -/
def ibufInit (b0 : Nat) (input : List Nat) : IBuf :=
  { buffer_ := b0, gpos := 1, input := input }

/-- `underflow` (src/process.cpp lines 42-47): `fgetc`; when it is not
EOF, store it in `buffer_` and `gbump(-1)`; return the character (or
none for EOF). -/
def underflow (st : IBuf) : Option Nat × IBuf :=
  match st.input with
  | [] => (none, st)
  | c :: rest => (some c, { buffer_ := c, gpos := st.gpos - 1, input := rest })

/-- `std::streambuf::sbumpc`, the machinery a one-byte read goes
through: if `gptr() < egptr()` return `*gptr()` and `gbump(1)`;
otherwise `uflow()`, whose default calls `underflow()` and, unless it
returned EOF, bumps the get pointer past the newly available byte. -/
def sbumpc (st : IBuf) : Option Nat × IBuf :=
  if st.gpos < 1 then (some st.buffer_, { st with gpos := st.gpos + 1 })
  else
    match underflow st with
    | (none, st1) => (none, st1)
    | (some c, st1) => (some c, { st1 with gpos := st1.gpos + 1 })

/-- `pbackfail` (src/process.cpp lines 57-66): if `eback() < gptr()`,
overwrite `buffer_` with the character (when one is supplied),
`gbump(-1)` and report success (`0`); otherwise report failure (EOF).
-/
def pbackfail (ch : Option Nat) (st : IBuf) : Option Unit × IBuf :=
  if 0 < st.gpos then
    (some (), { st with buffer_ := ch.getD st.buffer_, gpos := st.gpos - 1 })
  else (none, st)

/-- `std::streambuf::sputbackc(c)`, what `istream::putback(c)` calls:
when `eback() < gptr()` and `gptr()[-1] == c`, just `gbump(-1)`;
otherwise `pbackfail(c)`. -/
def sputbackc (c : Nat) (st : IBuf) : Option Unit × IBuf :=
  if 0 < st.gpos ∧ st.buffer_ = c then (some (), { st with gpos := st.gpos - 1 })
  else pbackfail (some c) st

/-- `xsgetn` (src/process.cpp lines 49-55): take the pushed-back byte
from the buffer when `gptr() < egptr()`, then `fread` the rest straight
from the `FILE`.  Returns the bytes delivered and the state after. -/
def xsgetn (n : Nat) (st : IBuf) : List Nat × IBuf :=
  if 0 < n ∧ st.gpos < 1 then
    let fromFile := st.input.take (n - 1)
    (st.buffer_ :: fromFile,
     { st with gpos := st.gpos + 1, input := st.input.drop (n - 1) })
  else
    (st.input.take n, { st with input := st.input.drop n })

/-! ## `make_charpp` (src/charpp.hpp lines 35-65)

`calloc(n + 1, sizeof(char*))` yields `n + 1` zeroed (null) pointer
slots, modelled as a list of `Option String` filled with `none`; the
loop `*np++ = strdup(it->data())` writes a duplicate of each argument
into consecutive slots.  `strdup`'s duplicate of a string is the string
value itself. -/

/-- The write loop: `*np++ = strdup(...)` starting at slot `i`. -/
def charppFill (arr : List (Option String)) (i : Nat) :
    List String → List (Option String)
  | [] => arr
  | s :: ss => charppFill (arr.set i (some s)) (i + 1) ss

/-- `make_charpp(first, last)` (src/charpp.hpp lines 35-48) on the
sequence of arguments: allocate `n + 1` null slots, fill the first `n`.
(The `calloc`-failure path throws `std::bad_alloc` before any slot
exists and is not modelled.) -/
def make_charpp (args : List String) : List (Option String) :=
  charppFill (List.replicate (args.length + 1) none) 0 args

/-- The program-plus-arguments overload (src/charpp.hpp lines 51-65):
allocate `1 + n + 1` null slots, write the program name into slot 0 and
the arguments into the following slots. -/
def make_charpp2 (first : String) (args : List String) : List (Option String) :=
  charppFill ((List.replicate (1 + args.length + 1) none).set 0 (some first)) 1 args

/-- Whether a spawn outcome is a reported OS error (a rethrown
`posix::errno_error`). -/
def resultIsOsError (r : Except PErr SpawnRes) : Bool :=
  match r with
  | .error (.osErr _) => true
  | _ => false

/-- Whether the child left through the OS-level exit primitive
(`std::exit`). -/
def endsInExit (r : ChildEnd) : Bool :=
  match r with
  | .exitCall _ => true
  | .unwound => false

/-! ## Helper lemmas -/

theorem mem_closeFd {x fd : Nat} {st : List Nat} :
    x ∈ closeFd st fd ↔ x ∈ st ∧ x ≠ fd := by
  simp [closeFd]

theorem mem_closePipe {x : Nat} {st : List Nat} {fp : Nat × Nat} :
    x ∈ closePipe st fp ↔ x ∈ st ∧ x ≠ fp.1 ∧ x ≠ fp.2 := by
  simp [closePipe, mem_closeFd, and_assoc]

theorem closePipe1_nil (fpo : Nat × Nat) :
    closePipe [fpo.1, fpo.2] fpo = [] := by
  rw [List.eq_nil_iff_forall_not_mem]
  intro x hx
  rw [mem_closePipe] at hx
  rcases hx with ⟨hmem, h1, h2⟩
  simp only [List.mem_cons, List.mem_singleton, List.not_mem_nil, or_false] at hmem
  rcases hmem with h | h
  · exact h1 h
  · exact h2 h

theorem closePipe2_nil (fpo fpi : Nat × Nat) :
    closePipe (closePipe [fpo.1, fpo.2, fpi.1, fpi.2] fpo) fpi = [] := by
  rw [List.eq_nil_iff_forall_not_mem]
  intro x hx
  rw [mem_closePipe] at hx
  rcases hx with ⟨hx, hi1, hi2⟩
  rw [mem_closePipe] at hx
  rcases hx with ⟨hmem, ho1, ho2⟩
  simp only [List.mem_cons, List.mem_singleton, List.not_mem_nil, or_false] at hmem
  rcases hmem with h | h | h | h
  · exact ho1 h
  · exact ho2 h
  · exact hi1 h
  · exact hi2 h

theorem closePipe3_nil (st : List Nat) (fpo fpi fpe : Nat × Nat)
    (h : ∀ x ∈ st, x = fpo.1 ∨ x = fpo.2 ∨ x = fpi.1 ∨ x = fpi.2 ∨
         x = fpe.1 ∨ x = fpe.2) :
    closePipe (closePipe (closePipe st fpo) fpi) fpe = [] := by
  rw [List.eq_nil_iff_forall_not_mem]
  intro x hx
  rw [mem_closePipe] at hx
  rcases hx with ⟨hx, he1, he2⟩
  rw [mem_closePipe] at hx
  rcases hx with ⟨hx, hi1, hi2⟩
  rw [mem_closePipe] at hx
  rcases hx with ⟨hmem, ho1, ho2⟩
  rcases h x hmem with h | h | h | h | h | h
  · exact ho1 h
  · exact ho2 h
  · exact hi1 h
  · exact hi2 h
  · exact he1 h
  · exact he2 h

/-! ## Claim theorems -/

/-- C2: joinability invariant.  `joinable()` returns `true` exactly when
the stored identifier differs from the null identifier (zero); whenever
`update` moves the state to `exited` or `signaled` the identifier is
reset to the null identifier (so the handle stops being joinable), while
a transition to `stopped` leaves the identifier — and hence joinability
— unchanged. -/
theorem c2_joinable_invariant (p : Process) (c g : Int) :
    (joinable p = true ↔ p.id_ ≠ 0) ∧
    (update p (.wExited c)).state_ = .exited ∧
    (update p (.wExited c)).id_ = 0 ∧
    joinable (update p (.wExited c)) = false ∧
    (update p (.wSignaled g)).state_ = .signaled ∧
    (update p (.wSignaled g)).id_ = 0 ∧
    joinable (update p (.wSignaled g)) = false ∧
    (update p (.wStopped g)).state_ = .stopped ∧
    (update p (.wStopped g)).id_ = p.id_ ∧
    joinable (update p (.wStopped g)) = joinable p := by
  refine ⟨?_, rfl, rfl, ?_, rfl, rfl, ?_, rfl, rfl, rfl⟩ <;> simp [joinable, update]

/-- C3: during `state()` (poll) and `join`, a `waitpid` failure with
`ECHILD` (no child process) sets the state to `not_started` and raises
no error, while a `waitpid` failure with any other errno propagates to
the caller as an OS error. -/
theorem c3_no_child_degrades (p : Process) (selfId : Int) (e : ErrNo)
    (rs : List WaitRes)
    (hrun : p.state_ = .running ∨ p.state_ = .stopped)
    (hj : joinable p = true) (hself : p.id_ ≠ selfId)
    (he : e ≠ .echild) :
    pollLoop p (.werr .echild :: rs) = .ok { p with state_ := .not_started } ∧
    join selfId p (.werr .echild :: rs) = .ok { p with state_ := .not_started } ∧
    pollLoop p (.werr e :: rs) = .error (.osErr e) ∧
    join selfId p (.werr e :: rs) = .error (.osErr e) := by
  have hjoin : ∀ l, join selfId p l = joinLoop p l := by
    intro l
    rw [join, if_neg (by simp [hj]), if_neg hself]
  refine ⟨?_, ?_, ?_, ?_⟩
  · simp only [pollLoop]; rw [if_pos hrun]; simp
  · rw [hjoin]; simp only [joinLoop]; rw [if_pos hrun]; simp
  · simp only [pollLoop]; rw [if_pos hrun]; simp [he]
  · rw [hjoin]; simp only [joinLoop]; rw [if_pos hrun]; simp [he]

theorem c3_no_child_degrades_witness :
    pollLoop ⟨5, .running, -1, -1⟩ [.werr .echild] = .ok ⟨5, .not_started, -1, -1⟩ ∧
    join 9 ⟨5, .running, -1, -1⟩ [.werr .echild] = .ok ⟨5, .not_started, -1, -1⟩ ∧
    pollLoop ⟨5, .running, -1, -1⟩ [.werr .eintr] = .error (.osErr .eintr) ∧
    join 9 ⟨5, .running, -1, -1⟩ [.werr .eintr] = .error (.osErr .eintr) :=
  c3_no_child_degrades ⟨5, .running, -1, -1⟩ 9 .eintr []
    (Or.inl rfl) (by decide) (by decide) (by decide)

/-- C5: `try_join_for_` (the engine behind `try_join_for` and
`try_join_until`) leaves the process-wide `SIGCHLD` handler slot with
the contents it had before the call, on every exit path — joined, timed
out, or thrown error — because the RAII guard's destructor restores the
saved handler on normal return and on stack unwinding alike. -/
theorem c5_sigchld_restored (selfId : Int) (p : Process) (env : TJEnv)
    (h0 : Handler) :
    (try_join_for_ selfId p env h0).2 = h0 := by
  rw [try_join_for_]
  by_cases hj : joinable p = false
  · rw [if_pos hj]
  · rw [if_neg hj]
    by_cases hs : p.id_ = selfId
    · rw [if_pos hs]
    · rw [if_neg hs]
      cases pollLoop p env.pre with
      | error e => rfl
      | ok q =>
        dsimp only
        by_cases hterm : ¬(q.state_ = .running ∨ q.state_ = .stopped)
        · rw [if_pos hterm]
        · rw [if_neg hterm]
          cases tjLoop q env.iters with
          | error e => rfl
          | ok r => rfl

/-- C6: `raise(signal_number)` throws a usage error — carried as
`invalid_argument`, a different shape from the errno-carrying OS errors
— when the handle is not joinable; otherwise it sends the signal and
returns successfully both when `kill` succeeds and when `kill` fails
with `ESRCH` (process no longer exists), while any other `kill` errno
propagates as an OS error. -/
theorem c6_raise_contract (p q : Process) (sig : Int) (k : KillRes) (e : ErrNo)
    (hp : joinable p = false) (hq : joinable q = true) (he : e ≠ .esrch) :
    raiseSig p sig k = .error (.sysUsage .invalidArgument) ∧
    (PErr.sysUsage .invalidArgument ≠ .osErr e) ∧
    raiseSig q sig .killOk = .ok () ∧
    raiseSig q sig (.killErr .esrch) = .ok () ∧
    raiseSig q sig (.killErr e) = .error (.osErr e) := by
  refine ⟨?_, by simp, ?_, ?_, ?_⟩
  · rw [raiseSig.eq_def, if_pos hp]
  · rw [raiseSig.eq_def, if_neg (by simp [hq])]
  · rw [raiseSig.eq_def, if_neg (by simp [hq])]; simp
  · rw [raiseSig.eq_def, if_neg (by simp [hq])]; simp [he]

theorem c6_raise_contract_witness :
    raiseSig ⟨0, .not_started, -1, -1⟩ 15 .killOk
      = .error (.sysUsage .invalidArgument) ∧
    (PErr.sysUsage .invalidArgument ≠ .osErr .eintr) ∧
    raiseSig ⟨5, .running, -1, -1⟩ 15 .killOk = .ok () ∧
    raiseSig ⟨5, .running, -1, -1⟩ 15 (.killErr .esrch) = .ok () ∧
    raiseSig ⟨5, .running, -1, -1⟩ 15 (.killErr .eintr)
      = .error (.osErr .eintr) :=
  c6_raise_contract ⟨0, .not_started, -1, -1⟩ ⟨5, .running, -1, -1⟩ 15 .killOk
    .eintr (by decide) (by decide) (by decide)

/-- C10: self-join is rejected.  On a joinable handle whose identifier
equals the calling process's own identifier, both `join` and
`try_join_for_` throw `resource_deadlock_would_occur` — distinct from
the `invalid_argument` non-joinable usage error — for every oracle,
i.e. before any wait is performed. -/
theorem c10_self_join_deadlock (p : Process) (selfId : Int)
    (rs : List WaitRes) (env : TJEnv) (h0 : Handler)
    (hj : joinable p = true) (hself : p.id_ = selfId) :
    join selfId p rs = .error (.sysUsage .resourceDeadlock) ∧
    try_join_for_ selfId p env h0 = (.error (.sysUsage .resourceDeadlock), h0) ∧
    (PErr.sysUsage .resourceDeadlock ≠ .sysUsage .invalidArgument) := by
  refine ⟨?_, ?_, by simp⟩
  · rw [join, if_neg (by simp [hj]), if_pos hself]
  · rw [try_join_for_, if_neg (by simp [hj]), if_pos hself]

theorem c10_self_join_deadlock_witness :
    join 7 ⟨7, .running, -1, -1⟩ [] = .error (.sysUsage .resourceDeadlock) ∧
    try_join_for_ 7 ⟨7, .running, -1, -1⟩ ⟨[], []⟩ .dfl
      = (.error (.sysUsage .resourceDeadlock), .dfl) ∧
    (PErr.sysUsage .resourceDeadlock ≠ .sysUsage .invalidArgument) :=
  c10_self_join_deadlock ⟨7, .running, -1, -1⟩ 7 [] ⟨[], []⟩ .dfl
    (by decide) (by decide)

/-- C1: spawn is atomic on failure.  Whenever one of the three `::pipe`
calls or the `::fork` call fails, the constructor reports an OS error to
the caller, every descriptor created by this spawn attempt has been
closed again (none is leaked), and no child process was created. -/
theorem c1_spawn_atomic (env : SpawnEnv)
    (hfail : (∃ e, env.po = .error e) ∨ (∃ e, env.pi_ = .error e) ∨
             (∃ e, env.pe = .error e) ∨ (∃ e, env.forkRes = .error e)) :
    resultIsOsError (spawn env).result = true ∧
    (spawn env).stillOpen = [] ∧
    (spawn env).childCreated = false := by
  obtain ⟨po, pi_, pe, fk, fo, fi, fe2, fen⟩ := env
  cases po with
  | error e => exact ⟨rfl, rfl, rfl⟩
  | ok fpo =>
    cases pi_ with
    | error e => exact ⟨rfl, closePipe1_nil fpo, rfl⟩
    | ok fpi =>
      cases pe with
      | error e => exact ⟨rfl, closePipe2_nil fpo fpi, rfl⟩
      | ok fpe =>
        cases fk with
        | error e =>
          refine ⟨rfl, ?_, rfl⟩
          exact closePipe3_nil [fpo.1, fpo.2, fpi.1, fpi.2, fpe.1, fpe.2]
            fpo fpi fpe (by intro x hx; simpa using hx)
        | ok pid => simp at hfail

theorem c1_spawn_atomic_witness :
    resultIsOsError (spawn ⟨.ok (3, 4), .error (.eother 24), .ok (7, 8),
      .ok 99, true, true, true, .eother 0⟩).result = true ∧
    (spawn ⟨.ok (3, 4), .error (.eother 24), .ok (7, 8),
      .ok 99, true, true, true, .eother 0⟩).stillOpen = [] ∧
    (spawn ⟨.ok (3, 4), .error (.eother 24), .ok (7, 8),
      .ok 99, true, true, true, .eother 0⟩).childCreated = false :=
  c1_spawn_atomic _ (Or.inr (Or.inl ⟨.eother 24, rfl⟩))

/-- C7: in the child, an exception escaping the entry point is caught
and converted to `EXIT_FAILURE`, and — once the three standard streams
are wired — the child always leaves through `std::exit` with a small
integer status: the entry point's return value when it returns, the
failure code when it throws.  No exception crosses the child's process
boundary. -/
theorem c7_child_exit (d1 d2 d3 : Bool) (fn : Except Unit Int) (c : Int)
    (h1 : d1 = true) (h2 : d2 = true) (h3 : d3 = true) :
    endsInExit (childRun d1 d2 d3 fn) = true ∧
    childRun d1 d2 d3 (.ok c) = .exitCall c ∧
    childRun d1 d2 d3 (.error ()) = .exitCall exitFailureCode := by
  subst h1 h2 h3
  refine ⟨?_, rfl, rfl⟩
  cases fn <;> rfl

theorem c7_child_exit_witness :
    endsInExit (childRun true true true (.error ())) = true ∧
    childRun true true true (.ok 7) = .exitCall 7 ∧
    childRun true true true (.error ()) = .exitCall exitFailureCode :=
  c7_child_exit true true true (.error ()) 7 rfl rfl rfl

theorem mem_dup2Open {x fd : Nat} {st : List Nat} :
    x ∈ dup2Open st fd ↔ x = fd ∨ x ∈ st := by
  unfold dup2Open
  by_cases h : st.contains fd
  · rw [if_pos h]
    have hfd : fd ∈ st := by simpa using h
    constructor
    · exact Or.inr
    · rintro (rfl | hx)
      · exact hfd
      · exact hx
  · rw [if_neg h]
    exact List.mem_cons

/-- C8 counterexample: the claim says `connect_write_end` closes the
original write end.  With the pipe `(3, 4)` (read end 3, write end 4),
target descriptor `1` and open-descriptor table `[3, 4]`, a successful
`write_to` leaves the table `[1, 4]`: the read end `3` is closed, but
the original write end `4` is still open. -/
theorem c8_write_end_left_open :
    write_to (3, 4) 1 none [3, 4] = (.ok (), [1, 4]) ∧
    4 ∈ (write_to (3, 4) 1 none [3, 4]).2 := by
  refine ⟨rfl, by decide⟩

/-- C8 amended: `write_to(pipe, target)` duplicates the pipe's write end
onto `target` and then closes only the read end — the original write
end stays open — and fails with an OS error, closing nothing, when the
duplication fails; symmetrically `read_from` duplicates the read end
onto `target` and closes only the write end, leaving the original read
end open. -/
theorem c8_connect_contract (fp : Nat × Nat) (fd : Nat) (st : List Nat)
    (e : ErrNo) (hends : fp.1 ≠ fp.2) (hfd1 : fd ≠ fp.1) (hfd2 : fd ≠ fp.2)
    (hr : fp.1 ∈ st) (hw : fp.2 ∈ st) :
    (write_to fp fd none st).1 = .ok () ∧
    fd ∈ (write_to fp fd none st).2 ∧
    fp.1 ∉ (write_to fp fd none st).2 ∧
    fp.2 ∈ (write_to fp fd none st).2 ∧
    write_to fp fd (some e) st = (.error (.osErr e), st) ∧
    (read_from fp fd none st).1 = .ok () ∧
    fd ∈ (read_from fp fd none st).2 ∧
    fp.2 ∉ (read_from fp fd none st).2 ∧
    fp.1 ∈ (read_from fp fd none st).2 ∧
    read_from fp fd (some e) st = (.error (.osErr e), st) := by
  refine ⟨rfl, ?_, ?_, ?_, rfl, rfl, ?_, ?_, ?_, rfl⟩
  · show fd ∈ closeFd (dup2Open st fd) fp.1
    rw [mem_closeFd, mem_dup2Open]
    exact ⟨Or.inl rfl, hfd1⟩
  · show fp.1 ∉ closeFd (dup2Open st fd) fp.1
    rw [mem_closeFd]
    exact fun h => h.2 rfl
  · show fp.2 ∈ closeFd (dup2Open st fd) fp.1
    rw [mem_closeFd, mem_dup2Open]
    exact ⟨Or.inr hw, fun h => hends h.symm⟩
  · show fd ∈ closeFd (dup2Open st fd) fp.2
    rw [mem_closeFd, mem_dup2Open]
    exact ⟨Or.inl rfl, hfd2⟩
  · show fp.2 ∉ closeFd (dup2Open st fd) fp.2
    rw [mem_closeFd]
    exact fun h => h.2 rfl
  · show fp.1 ∈ closeFd (dup2Open st fd) fp.2
    rw [mem_closeFd, mem_dup2Open]
    exact ⟨Or.inr hr, hends⟩

theorem c8_connect_contract_witness :
    (write_to (3, 4) 1 none [0, 1, 2, 3, 4]).1 = .ok () ∧
    1 ∈ (write_to (3, 4) 1 none [0, 1, 2, 3, 4]).2 ∧
    3 ∉ (write_to (3, 4) 1 none [0, 1, 2, 3, 4]).2 ∧
    4 ∈ (write_to (3, 4) 1 none [0, 1, 2, 3, 4]).2 ∧
    write_to (3, 4) 1 (some (.eother 9)) [0, 1, 2, 3, 4]
      = (.error (.osErr (.eother 9)), [0, 1, 2, 3, 4]) ∧
    (read_from (3, 4) 1 none [0, 1, 2, 3, 4]).1 = .ok () ∧
    1 ∈ (read_from (3, 4) 1 none [0, 1, 2, 3, 4]).2 ∧
    4 ∉ (read_from (3, 4) 1 none [0, 1, 2, 3, 4]).2 ∧
    3 ∈ (read_from (3, 4) 1 none [0, 1, 2, 3, 4]).2 ∧
    read_from (3, 4) 1 (some (.eother 9)) [0, 1, 2, 3, 4]
      = (.error (.osErr (.eother 9)), [0, 1, 2, 3, 4]) :=
  c8_connect_contract (3, 4) 1 [0, 1, 2, 3, 4] (.eother 9)
    (by decide) (by decide) (by decide) (by decide) (by decide)

/-- C4 counterexample: the claim says putback fails cleanly when no byte
has yet been consumed.  On a freshly constructed `ifilebuf` (get pointer
at `egptr() = eback() + 1`, nothing consumed, empty file), `pbackfail`
— and hence `putback` — succeeds, injecting the byte `65`. -/
theorem c4_pushback_at_start_succeeds :
    (pbackfail (some 65) (ibufInit 0 [])).1 = some () ∧
    (sputbackc 65 (ibufInit 0 [])).1 = some () ∧
    pbackfail (some 65) (ibufInit 0 []) = (some (), ⟨65, 0, []⟩) := by
  refine ⟨by decide, by decide, by decide⟩

/-- C4 amended: putback succeeds whenever the get pointer is past
`eback()` — in particular immediately after a successful read of at
least one byte (through `sbumpc` or `xsgetn`), but also on the freshly
constructed adapter — and fails cleanly exactly when the get pointer is
at `eback()`, i.e. immediately after a putback; a pushed-back byte is
returned by the next read exactly once, with the underlying input
untouched (no duplication of the byte sequence). -/
theorem c4_pushback_contract (b0 c ch : Nat) (rest inp : List Nat) (n : Nat) :
    sbumpc (ibufInit b0 (c :: rest)) = (some c, ⟨c, 1, rest⟩) ∧
    pbackfail (some c) ⟨c, 1, rest⟩ = (some (), ⟨c, 0, rest⟩) ∧
    sputbackc c ⟨c, 1, rest⟩ = (some (), ⟨c, 0, rest⟩) ∧
    sbumpc ⟨c, 0, rest⟩ = (some c, ⟨c, 1, rest⟩) ∧
    pbackfail (some ch) ⟨c, 0, rest⟩ = (none, ⟨c, 0, rest⟩) ∧
    sputbackc ch ⟨c, 0, rest⟩ = (none, ⟨c, 0, rest⟩) ∧
    (pbackfail (some ch) ((xsgetn (n + 1) (ibufInit b0 inp)).2)).1 = some () := by
  refine ⟨?_, ?_, ?_, ?_, ?_, ?_, ?_⟩
  · simp [sbumpc, underflow, ibufInit]
  · simp [pbackfail]
  · simp [sputbackc]
  · simp [sbumpc]
  · simp [pbackfail]
  · simp [sputbackc, pbackfail]
  · simp [xsgetn, pbackfail, ibufInit]

theorem set_len_cons (pre : List (Option String)) (a b : Option String)
    (suf : List (Option String)) :
    (pre ++ a :: suf).set pre.length b = pre ++ b :: suf := by
  induction pre with
  | nil => rfl
  | cons x xs ih =>
    show x :: ((xs ++ a :: suf).set xs.length b) = x :: (xs ++ b :: suf)
    rw [ih]

theorem charppFill_spec (ss : List String) :
    ∀ pre suf : List (Option String),
      charppFill (pre ++ (List.replicate ss.length none ++ suf)) pre.length ss
        = pre ++ (ss.map some ++ suf) := by
  induction ss with
  | nil => intro pre suf; simp [charppFill]
  | cons s ss ih =>
    intro pre suf
    have step :
        (pre ++ (List.replicate (s :: ss).length none ++ suf)).set
            pre.length (some s)
          = (pre ++ [some s]) ++ (List.replicate ss.length none ++ suf) := by
      rw [List.length_cons, List.replicate_succ, List.cons_append,
        set_len_cons pre none (some s) (List.replicate ss.length none ++ suf)]
      simp
    rw [charppFill, step]
    have hlen : pre.length + 1 = (pre ++ [some s]).length := by simp
    rw [hlen, ih (pre ++ [some s]) suf]
    simp

theorem make_charpp_eq (args : List String) :
    make_charpp args = args.map some ++ [none] := by
  have h := charppFill_spec args [] [none]
  simp only [List.nil_append, List.length_nil] at h
  rw [make_charpp, List.replicate_succ']
  exact h

theorem make_charpp2_eq (first : String) (args : List String) :
    make_charpp2 first args = some first :: (args.map some ++ [none]) := by
  have h := charppFill_spec args [some first] [none]
  simp only [List.length_cons, List.length_nil, Nat.zero_add] at h
  rw [make_charpp2]
  have hset : (List.replicate (1 + args.length + 1) none).set 0 (some first)
      = [some first] ++ (List.replicate args.length none ++ [none]) := by
    have h2 : 1 + args.length + 1 = (args.length + 1) + 1 := by omega
    rw [h2, List.replicate_succ, List.replicate_succ']
    rfl
  rw [hset]
  simpa using h

/-- C9: for a sequence of `n` text arguments, `make_charpp` returns
`n + 1` pointer slots: the first `n` hold duplicates of the input
strings in their original order and the final slot is null; the
program-plus-arguments overload prepends a duplicate of the program
name, with the same null terminator. -/
theorem c9_make_charpp_shape (args : List String) (first : String) :
    (make_charpp args).length = args.length + 1 ∧
    make_charpp args = args.map some ++ [none] ∧
    make_charpp2 first args = some first :: (args.map some ++ [none]) := by
  refine ⟨?_, make_charpp_eq args, make_charpp2_eq first args⟩
  rw [make_charpp_eq args]
  simp

end Pgm
